import Mathlib

/-!
# kubetest2-gke deployer: external-command helpers (`commandutils.go`)

A shallow embedding of `kubetest2-gke/deployer/commandutils.go`.

* Go strings are Lean strings; Go `error` values are the inductive `GoError`
  (`nil` is `none`).
* Every interaction with the outside (setting an environment variable, running a
  command, checking a file, a log line) is appended to an explicit trace of
  `Effect`s, and its result is read from a `World`, whose answers may depend on
  everything that happened before.
* What `commandutils.go` uses but does not declare (the pattern `urlRe`, the
  `Deployer` fields, the `exec.Cmd` values) is a parameter of the model.
-/

namespace Kubetest2GKE

/-! ## Go errors -/

/-- Go error values that reach this file.  `errorString` is what `fmt.Errorf` returns
for a format without `%w`, `wrapError` what it returns with `%w`, `exitError` is
`*os/exec.ExitError` (the process state and the captured standard error), and
`pathError` is `*os.PathError`. -/
inductive GoError where
  | errorString (s : String)
  | wrapError (msg : String) (err : GoError)
  | exitError (state : String) (stderr : String)
  | pathError (op : String) (path : String) (err : GoError)
  deriving DecidableEq

/-- The `Error()` method: the default textual description of an error. -/
def GoError.Error : GoError → String
  | .errorString s => s
  | .wrapError msg _ => msg
  | .exitError state _ => state
  | .pathError op path err => op ++ " " ++ path ++ ": " ++ err.Error

/-- The `Unwrap()` method, as `errors.Unwrap` sees it. -/
def GoError.Unwrap : GoError → Option GoError
  | .errorString _ => none
  | .wrapError _ err => some err
  | .exitError _ _ => none
  | .pathError _ _ err => some err

instance : DecidableEq (Except GoError String)
  | .ok a, .ok b => if h : a = b then isTrue (by rw [h]) else isFalse (by intro hh; cases hh; exact h rfl)
  | .error a, .error b =>
    if h : a = b then isTrue (by rw [h]) else isFalse (by intro hh; cases hh; exact h rfl)
  | .ok _, .error _ => isFalse (by intro hh; cases hh)
  | .error _, .ok _ => isFalse (by intro hh; cases hh)

/-! ## The `%q` verb -/

/-- The digits of `strconv`'s `lowerhex`. -/
def lowerhex (n : Nat) : Char :=
  if n % 16 < 10 then Char.ofNat (48 + n % 16) else Char.ofNat (87 + n % 16)

/-- Go's `strconv.IsPrint`: decided by range up to U+00FF, by the Unicode tables
(the parameter `tbl`) above. -/
def IsPrint (tbl : Char → Bool) (r : Char) : Bool :=
  if r.toNat ≤ 0xFF then
    if 0x20 ≤ r.toNat ∧ r.toNat ≤ 0x7E then true
    else if 0xA1 ≤ r.toNat then r.toNat ≠ 0xAD
    else false
  else tbl r

/-- Go's `strconv.appendEscapedRune` for the double quote, neither ASCII-only nor
graphic-only: what one character of a string becomes under `%q`. -/
def appendEscapedRune (tbl : Char → Bool) (r : Char) : List Char :=
  if r.toNat = 34 ∨ r.toNat = 92 then [Char.ofNat 92, r]
  else if IsPrint tbl r then [r]
  else if r.toNat = 7 then [Char.ofNat 92, Char.ofNat 97]
  else if r.toNat = 8 then [Char.ofNat 92, Char.ofNat 98]
  else if r.toNat = 12 then [Char.ofNat 92, Char.ofNat 102]
  else if r.toNat = 10 then [Char.ofNat 92, Char.ofNat 110]
  else if r.toNat = 13 then [Char.ofNat 92, Char.ofNat 114]
  else if r.toNat = 9 then [Char.ofNat 92, Char.ofNat 116]
  else if r.toNat = 11 then [Char.ofNat 92, Char.ofNat 118]
  else if r.toNat < 32 ∨ r.toNat = 0x7F then
    [Char.ofNat 92, Char.ofNat 120, lowerhex (r.toNat / 16), lowerhex r.toNat]
  else if r.toNat < 0x10000 then
    [Char.ofNat 92, Char.ofNat 117, lowerhex (r.toNat / 4096), lowerhex (r.toNat / 256),
      lowerhex (r.toNat / 16), lowerhex r.toNat]
  else
    [Char.ofNat 92, Char.ofNat 85, lowerhex (r.toNat / 268435456),
      lowerhex (r.toNat / 16777216), lowerhex (r.toNat / 1048576),
      lowerhex (r.toNat / 65536), lowerhex (r.toNat / 4096), lowerhex (r.toNat / 256),
      lowerhex (r.toNat / 16), lowerhex r.toNat]

/-- Go's `strconv.Quote`, which is what `fmt` does for `%q` on a string: the string
between double quotes, each character escaped by `appendEscapedRune`. -/
def Quote (tbl : Char → Bool) (s : String) : String :=
  ⟨Char.ofNat 34 :: ((s.data.map (appendEscapedRune tbl)).flatten ++ [Char.ofNat 34])⟩

/-! ## Commands, effects and the world -/

/-- The `exec.Cmd` values this file builds: `exec.RawCommand(raw)` and
`exec.Command(name, args...)`. -/
inductive Cmd where
  | RawCommand (raw : String)
  | Command (name : String) (args : List String)
  deriving DecidableEq

/-- How a command's standard streams are set before it runs: `exec.NoOutput` or
`exec.InheritOutput`. -/
inductive OutputPolicy where
  | NoOutput
  | InheritOutput
  deriving DecidableEq

/-- One interaction with the outside, recorded when it is made, whether it then succeeds
or fails. -/
inductive Effect where
  | Setenv (key : String) (value : String)
  | Run (policy : OutputPolicy) (cmd : Cmd)
  | Stat (path : String)
  | klogInfo (v : Nat) (msg : String)
  deriving DecidableEq

/-- A compiled regular expression, as far as this file uses one: `MatchString`, and
the source text that `%v` prints. -/
structure Regexp where
  MatchString : String → Bool
  source : String

/-- Everything `commandutils.go` reads from outside itself.  The answers of the
operating system take the trace of the effects performed so far. -/
structure World where
  urlRe : Regexp
  printTable : Char → Bool
  Setenv : List Effect → String → String → Option GoError
  Run : List Effect → OutputPolicy → Cmd → Option GoError
  Stat : List Effect → String → Option GoError
  Getenv : List Effect → String → String
  Join : List String → String

/-- The fields of `Deployer` that `PrepareGcpIfNeeded` reads. -/
structure Deployer where
  Environment : String
  GCPServiceAccount : String
  GCPSSHKeyIgnored : Bool

/-- `os.Setenv(key, value)`. -/
def osSetenv (w : World) (t : List Effect) (key value : String) :
    Option GoError × List Effect :=
  (w.Setenv t key value, t ++ [Effect.Setenv key value])

/-- `os.Stat(path)`, of which only the error is used; a failure is a `*PathError`
with operation `stat` and the path. -/
def osStat (w : World) (t : List Effect) (path : String) : Option GoError × List Effect :=
  ((w.Stat t path).map (GoError.pathError "stat" path), t ++ [Effect.Stat path])

/-! ## The functions of `commandutils.go` -/

/-- `runWithNoOutput`: `exec.NoOutput(cmd)`, then `cmd.Run()`. -/
def runWithNoOutput (w : World) (t : List Effect) (cmd : Cmd) : Option GoError × List Effect :=
  (w.Run t .NoOutput cmd, t ++ [Effect.Run .NoOutput cmd])

/-- `runWithOutput`: `exec.InheritOutput(cmd)`, then `cmd.Run()`. -/
def runWithOutput (w : World) (t : List Effect) (cmd : Cmd) : Option GoError × List Effect :=
  (w.Run t .InheritOutput cmd, t ++ [Effect.Run .InheritOutput cmd])

/-- `activateServiceAccount`: activate the service account if set, or do nothing. -/
def activateServiceAccount (w : World) (t : List Effect) (path : String) :
    Option GoError × List Effect :=
  if path = "" then (none, t)
  else runWithOutput w t (.RawCommand ("gcloud auth activate-service-account --key-file=" ++ path))

/-- `home(parts...)`: `filepath.Join` of `$HOME` and the parts. -/
def home (w : World) (t : List Effect) (parts : List String) : String :=
  w.Join (w.Getenv t "HOME" :: parts)

/-- `containerArgs`. -/
def containerArgs (args : List String) : List String :=
  ([] ++ ["container"]) ++ args

/-- `getClusterCredentials`. -/
def getClusterCredentials (w : World) (t : List Effect) (project loc cluster : String) :
    Option GoError × List Effect :=
  match runWithOutput w t (.Command "gcloud"
      (containerArgs ["clusters", "get-credentials", cluster, "--project=" ++ project, loc])) with
  | (some err, t1) => (some (.errorString ("error executing get-credentials: " ++ err.Error)), t1)
  | (none, t1) => (none, t1)

/-- `execError`: the string form of `err`, with the captured standard error when
`err` is an `*ExitError` (a type assertion on `err` itself, not on what it wraps). -/
def execError (tbl : Char → Bool) (err : GoError) : String :=
  match err with
  | .exitError _ stderr => err.Error ++ " (output: " ++ Quote tbl stderr ++ ")"
  | _ => err.Error

/-- The `switch` that opens `PrepareGcpIfNeeded` (lines 38-52): the endpoint for
`d.Environment`, or the error the `default` case returns. -/
def endpointSwitch (w : World) (env : String) : Except GoError String :=
  if env = "test" then .ok "https://test-container.sandbox.googleapis.com/"
  else if env = "staging" then .ok "https://staging-container.sandbox.googleapis.com/"
  else if env = "staging2" then .ok "https://staging2-container.sandbox.googleapis.com/"
  else if env = "prod" then .ok "https://container.googleapis.com/"
  else if w.urlRe.MatchString env then .ok env
  else .error (.errorString
    ("--environment must be one of \x7btest,staging,staging2,prod\x7d or match "
      ++ w.urlRe.source ++ ", found " ++ Quote w.printTable env))

/-- `(*Deployer).PrepareGcpIfNeeded`, started after the effects `t`: the returned
error and the trace at return. -/
def PrepareGcpIfNeeded (w : World) (d : Deployer) (projectID : String) (t : List Effect) :
    Option GoError × List Effect :=
  match endpointSwitch w d.Environment with
  | .error e => (some e, t)
  | .ok endpoint =>
    match osSetenv w t "CLOUDSDK_CORE_PRINT_UNHANDLED_TRACEBACKS" "1" with
    | (some err, t1) =>
      (some (.errorString
        ("could not set CLOUDSDK_CORE_PRINT_UNHANDLED_TRACEBACKS=1: " ++ err.Error)), t1)
    | (none, t1) =>
      match osSetenv w t1 "CLOUDSDK_API_ENDPOINT_OVERRIDES_CONTAINER" endpoint with
      | (some err, t2) => (some err, t2)
      | (none, t2) =>
        match runWithOutput w t2 (.RawCommand ("gcloud config set project " ++ projectID)) with
        | (some err, t3) =>
          (some (.wrapError ("failed to set project " ++ projectID ++ ": " ++ err.Error) err), t3)
        | (none, t3) =>
          match activateServiceAccount w t3 d.GCPServiceAccount with
          | (some err, t4) => (some err, t4)
          | (none, t4) =>
            if !d.GCPSSHKeyIgnored then
              let t5 := t4 ++ [Effect.klogInfo 1 "Checking existing of GCP ssh keys..."]
              let k := w.Join [home w t5 [".ssh"], "google_compute_engine"]
              match osStat w t5 k with
              | (some err, t6) => (some err, t6)
              | (none, t6) =>
                let pk := k ++ ".pub"
                match osStat w t6 pk with
                | (some err, t7) => (some err, t7)
                | (none, t7) => (none, t7)
            else (none, t4)

/-! ## The words of the specification -/

/-- The four named environments and their fixed endpoints. -/
def namedEndpoints : List (String × String) :=
  [("test", "https://test-container.sandbox.googleapis.com/"),
   ("staging", "https://staging-container.sandbox.googleapis.com/"),
   ("staging2", "https://staging2-container.sandbox.googleapis.com/"),
   ("prod", "https://container.googleapis.com/")]

/-- The reference Environment Resolver of the specification: a named environment gives
its fixed endpoint; any other string that matches the URL pattern is its own endpoint;
anything else has none. -/
def EnvironmentResolver (urlPattern : String → Bool) (env : String) : Option String :=
  match namedEndpoints.lookup env with
  | some url => some url
  | none => if urlPattern env then some env else none

/-- The values a trace hands to `os.Setenv` for the variable `key`, in order. -/
def written (key : String) (tr : List Effect) : List String :=
  tr.filterMap (fun e =>
    match e with
    | .Setenv k v => if k = key then some v else none
    | _ => none)

/-- The commands a trace runs, in order. -/
def invocations (tr : List Effect) : List (OutputPolicy × Cmd) :=
  tr.filterMap (fun e =>
    match e with
    | .Run p c => some (p, c)
    | _ => none)

/-- The paths a trace checks with `os.Stat`, in order. -/
def checked (tr : List Effect) : List String :=
  tr.filterMap (fun e =>
    match e with
    | .Stat p => some p
    | _ => none)

/-- The two variables set, then the project configured: the effects of a run of
`PrepareGcpIfNeeded` up to and including its first command. -/
def setupEffects (endpoint projectID : String) : List Effect :=
  [.Setenv "CLOUDSDK_CORE_PRINT_UNHANDLED_TRACEBACKS" "1",
   .Setenv "CLOUDSDK_API_ENDPOINT_OVERRIDES_CONTAINER" endpoint,
   .Run .InheritOutput (.RawCommand ("gcloud config set project " ++ projectID))]

/-- Steps 1 to 3 of the Preparation Sequencer succeed in the run started after `t`:
the environment resolves to `endpoint`, both variables are set and the project is
configured. -/
def ProjectConfigured (w : World) (d : Deployer) (projectID : String) (t : List Effect)
    (endpoint : String) : Prop :=
  endpointSwitch w d.Environment = .ok endpoint ∧
  w.Setenv t "CLOUDSDK_CORE_PRINT_UNHANDLED_TRACEBACKS" "1" = none ∧
  w.Setenv (t ++ [.Setenv "CLOUDSDK_CORE_PRINT_UNHANDLED_TRACEBACKS" "1"])
    "CLOUDSDK_API_ENDPOINT_OVERRIDES_CONTAINER" endpoint = none ∧
  w.Run (t ++ (setupEffects endpoint projectID).take 2) .InheritOutput
    (.RawCommand ("gcloud config set project " ++ projectID)) = none

instance (w : World) (d : Deployer) (projectID : String) (t : List Effect)
    (endpoint : String) : Decidable (ProjectConfigured w d projectID t endpoint) := by
  unfold ProjectConfigured; exact inferInstance

/-- Steps 1 to 4 succeed: moreover the service account is activated, or there is none. -/
def CredentialsActivated (w : World) (d : Deployer) (projectID : String) (t : List Effect)
    (endpoint : String) : Prop :=
  ProjectConfigured w d projectID t endpoint ∧
  (activateServiceAccount w (t ++ setupEffects endpoint projectID) d.GCPServiceAccount).1 = none

instance (w : World) (d : Deployer) (projectID : String) (t : List Effect)
    (endpoint : String) : Decidable (CredentialsActivated w d projectID t endpoint) := by
  unfold CredentialsActivated; exact inferInstance

/-- The trace when the key files are looked for: everything up to the activation of the
service account, and the one log line. -/
def keyCheckTrace (w : World) (d : Deployer) (projectID : String) (t : List Effect)
    (endpoint : String) : List Effect :=
  (activateServiceAccount w (t ++ setupEffects endpoint projectID) d.GCPServiceAccount).2
    ++ [.klogInfo 1 "Checking existing of GCP ssh keys..."]

/-- The path of the private key: `google_compute_engine` in `.ssh` under `$HOME`, with
`$HOME` read after the effects `tr`. -/
def privateKeyPath (w : World) (tr : List Effect) : String :=
  w.Join [w.Join [w.Getenv tr "HOME", ".ssh"], "google_compute_engine"]

/-! ## A concrete world -/

/-- A pattern for URLs: the strings that start with `https://` and, after it, end with
a slash. -/
def sampleUrlRe : Regexp where
  MatchString := fun s =>
    "https://".data.isPrefixOf s.data && (s.data.drop 8).getLast? == some (Char.ofNat 47)
  source := "(?s)^https://.*/$"

/-- A world in the manner of a Unix system.  Setting a variable fails with `EINVAL` when
the name is empty or holds `=` or a NUL, or the value holds a NUL; the commands in
`failing` exit with status 1 and every other command succeeds; exactly the paths in
`files` exist; `$HOME` is `/home/prow`; and paths are joined with a slash. -/
def sampleWorld (failing : List Cmd) (files : List String) : World where
  urlRe := sampleUrlRe
  printTable := fun _ => false
  Setenv := fun _ key value =>
    if key = "" ∨ Char.ofNat 61 ∈ key.data ∨ Char.ofNat 0 ∈ key.data ∨ Char.ofNat 0 ∈ value.data
    then some (.errorString "setenv: invalid argument") else none
  Run := fun _ _ cmd =>
    if cmd ∈ failing then some (.exitError "exit status 1" "") else none
  Stat := fun _ path =>
    if path ∈ files then none else some (.errorString "no such file or directory")
  Getenv := fun _ key => if key = "HOME" then "/home/prow" else ""
  Join := fun parts => "/".intercalate (parts.filter (fun p => p ≠ ""))

/-! ## Step lemmas for `PrepareGcpIfNeeded` -/

theorem prepare_invalid (w : World) (d : Deployer) (projectID : String) (t : List Effect)
    (e : GoError) (h : endpointSwitch w d.Environment = .error e) :
    PrepareGcpIfNeeded w d projectID t = (some e, t) := by
  simp [PrepareGcpIfNeeded, h]

theorem prepare_setenv1_fails (w : World) (d : Deployer) (projectID : String)
    (t : List Effect) (endpoint : String) (err : GoError)
    (h : endpointSwitch w d.Environment = .ok endpoint)
    (h1 : w.Setenv t "CLOUDSDK_CORE_PRINT_UNHANDLED_TRACEBACKS" "1" = some err) :
    PrepareGcpIfNeeded w d projectID t =
      (some (.errorString
        ("could not set CLOUDSDK_CORE_PRINT_UNHANDLED_TRACEBACKS=1: " ++ err.Error)),
       t ++ [.Setenv "CLOUDSDK_CORE_PRINT_UNHANDLED_TRACEBACKS" "1"]) := by
  simp [PrepareGcpIfNeeded, h, osSetenv, h1]

theorem prepare_setenv2_fails (w : World) (d : Deployer) (projectID : String)
    (t : List Effect) (endpoint : String) (err : GoError)
    (h : endpointSwitch w d.Environment = .ok endpoint)
    (h1 : w.Setenv t "CLOUDSDK_CORE_PRINT_UNHANDLED_TRACEBACKS" "1" = none)
    (h2 : w.Setenv (t ++ [.Setenv "CLOUDSDK_CORE_PRINT_UNHANDLED_TRACEBACKS" "1"])
      "CLOUDSDK_API_ENDPOINT_OVERRIDES_CONTAINER" endpoint = some err) :
    PrepareGcpIfNeeded w d projectID t =
      (some err, t ++ [.Setenv "CLOUDSDK_CORE_PRINT_UNHANDLED_TRACEBACKS" "1",
        .Setenv "CLOUDSDK_API_ENDPOINT_OVERRIDES_CONTAINER" endpoint]) := by
  simp [PrepareGcpIfNeeded, h, osSetenv, h1, h2]

theorem prepare_project_fails (w : World) (d : Deployer) (projectID : String)
    (t : List Effect) (endpoint : String) (err : GoError)
    (h : endpointSwitch w d.Environment = .ok endpoint)
    (h1 : w.Setenv t "CLOUDSDK_CORE_PRINT_UNHANDLED_TRACEBACKS" "1" = none)
    (h2 : w.Setenv (t ++ [.Setenv "CLOUDSDK_CORE_PRINT_UNHANDLED_TRACEBACKS" "1"])
      "CLOUDSDK_API_ENDPOINT_OVERRIDES_CONTAINER" endpoint = none)
    (h3 : w.Run (t ++ (setupEffects endpoint projectID).take 2) .InheritOutput
      (.RawCommand ("gcloud config set project " ++ projectID)) = some err) :
    PrepareGcpIfNeeded w d projectID t =
      (some (.wrapError ("failed to set project " ++ projectID ++ ": " ++ err.Error) err),
       t ++ setupEffects endpoint projectID) := by
  simp [setupEffects] at h3
  simp [PrepareGcpIfNeeded, h, osSetenv, h1, h2, runWithOutput, h3, setupEffects]

theorem prepare_activation_fails (w : World) (d : Deployer) (projectID : String)
    (t : List Effect) (endpoint : String) (err : GoError)
    (h : ProjectConfigured w d projectID t endpoint)
    (h4 : (activateServiceAccount w (t ++ setupEffects endpoint projectID)
      d.GCPServiceAccount).1 = some err) :
    PrepareGcpIfNeeded w d projectID t =
      (some err, (activateServiceAccount w (t ++ setupEffects endpoint projectID)
        d.GCPServiceAccount).2) := by
  obtain ⟨h0, h1, h2, h3⟩ := h
  simp [setupEffects] at h3 h4 ⊢
  generalize hact : activateServiceAccount w _ d.GCPServiceAccount = r at h4 ⊢
  obtain ⟨r1, r2⟩ := r
  simp at h4
  simp [PrepareGcpIfNeeded, h0, osSetenv, h1, h2, runWithOutput, h3, hact, h4]

theorem prepare_keys_ignored (w : World) (d : Deployer) (projectID : String)
    (t : List Effect) (endpoint : String)
    (h : CredentialsActivated w d projectID t endpoint)
    (hk : d.GCPSSHKeyIgnored = true) :
    PrepareGcpIfNeeded w d projectID t =
      (none, (activateServiceAccount w (t ++ setupEffects endpoint projectID)
        d.GCPServiceAccount).2) := by
  obtain ⟨⟨h0, h1, h2, h3⟩, h4⟩ := h
  simp [setupEffects] at h3 h4 ⊢
  generalize hact : activateServiceAccount w _ d.GCPServiceAccount = r at h4 ⊢
  obtain ⟨r1, r2⟩ := r
  simp at h4
  simp [PrepareGcpIfNeeded, h0, osSetenv, h1, h2, runWithOutput, h3, hact, h4, hk]

theorem prepare_private_key_missing (w : World) (d : Deployer) (projectID : String)
    (t : List Effect) (endpoint : String) (cause : GoError)
    (h : CredentialsActivated w d projectID t endpoint)
    (hk : d.GCPSSHKeyIgnored = false)
    (hs : w.Stat (keyCheckTrace w d projectID t endpoint)
      (privateKeyPath w (keyCheckTrace w d projectID t endpoint)) = some cause) :
    PrepareGcpIfNeeded w d projectID t =
      (some (.pathError "stat" (privateKeyPath w (keyCheckTrace w d projectID t endpoint)) cause),
       keyCheckTrace w d projectID t endpoint ++
        [.Stat (privateKeyPath w (keyCheckTrace w d projectID t endpoint))]) := by
  obtain ⟨⟨h0, h1, h2, h3⟩, h4⟩ := h
  simp [setupEffects, keyCheckTrace, privateKeyPath] at h3 h4 hs ⊢
  generalize hact : activateServiceAccount w _ d.GCPServiceAccount = r at h4 hs ⊢
  obtain ⟨r1, r2⟩ := r
  simp at h4 hs
  simp [PrepareGcpIfNeeded, h0, osSetenv, h1, h2, runWithOutput, h3, hact, h4, hk, home,
    osStat, hs]

theorem prepare_public_key_missing (w : World) (d : Deployer) (projectID : String)
    (t : List Effect) (endpoint : String) (cause : GoError)
    (h : CredentialsActivated w d projectID t endpoint)
    (hk : d.GCPSSHKeyIgnored = false)
    (hs : w.Stat (keyCheckTrace w d projectID t endpoint)
      (privateKeyPath w (keyCheckTrace w d projectID t endpoint)) = none)
    (hp : w.Stat (keyCheckTrace w d projectID t endpoint ++
        [.Stat (privateKeyPath w (keyCheckTrace w d projectID t endpoint))])
      (privateKeyPath w (keyCheckTrace w d projectID t endpoint) ++ ".pub") = some cause) :
    PrepareGcpIfNeeded w d projectID t =
      (some (.pathError "stat"
        (privateKeyPath w (keyCheckTrace w d projectID t endpoint) ++ ".pub") cause),
       keyCheckTrace w d projectID t endpoint ++
        [.Stat (privateKeyPath w (keyCheckTrace w d projectID t endpoint)),
         .Stat (privateKeyPath w (keyCheckTrace w d projectID t endpoint) ++ ".pub")]) := by
  obtain ⟨⟨h0, h1, h2, h3⟩, h4⟩ := h
  simp [setupEffects, keyCheckTrace, privateKeyPath] at h3 h4 hs hp ⊢
  generalize hact : activateServiceAccount w _ d.GCPServiceAccount = r at h4 hs hp ⊢
  obtain ⟨r1, r2⟩ := r
  simp at h4 hs hp
  simp [PrepareGcpIfNeeded, h0, osSetenv, h1, h2, runWithOutput, h3, hact, h4, hk, home,
    osStat, hs, hp]

theorem prepare_keys_present (w : World) (d : Deployer) (projectID : String)
    (t : List Effect) (endpoint : String)
    (h : CredentialsActivated w d projectID t endpoint)
    (hk : d.GCPSSHKeyIgnored = false)
    (hs : w.Stat (keyCheckTrace w d projectID t endpoint)
      (privateKeyPath w (keyCheckTrace w d projectID t endpoint)) = none)
    (hp : w.Stat (keyCheckTrace w d projectID t endpoint ++
        [.Stat (privateKeyPath w (keyCheckTrace w d projectID t endpoint))])
      (privateKeyPath w (keyCheckTrace w d projectID t endpoint) ++ ".pub") = none) :
    PrepareGcpIfNeeded w d projectID t =
      (none,
       keyCheckTrace w d projectID t endpoint ++
        [.Stat (privateKeyPath w (keyCheckTrace w d projectID t endpoint)),
         .Stat (privateKeyPath w (keyCheckTrace w d projectID t endpoint) ++ ".pub")]) := by
  obtain ⟨⟨h0, h1, h2, h3⟩, h4⟩ := h
  simp [setupEffects, keyCheckTrace, privateKeyPath] at h3 h4 hs hp ⊢
  generalize hact : activateServiceAccount w _ d.GCPServiceAccount = r at h4 hs hp ⊢
  obtain ⟨r1, r2⟩ := r
  simp at h4 hs hp
  simp [PrepareGcpIfNeeded, h0, osSetenv, h1, h2, runWithOutput, h3, hact, h4, hk, home,
    osStat, hs, hp]

/-! ## The shape of a run's trace -/

theorem activate_trace (w : World) (t : List Effect) (path : String) :
    (activateServiceAccount w t path).2 = t ∨
    (activateServiceAccount w t path).2 = t ++ [.Run .InheritOutput
      (.RawCommand ("gcloud auth activate-service-account --key-file=" ++ path))] := by
  unfold activateServiceAccount
  split
  · exact Or.inl rfl
  · exact Or.inr rfl

/-- No effect of the list sets an environment variable. -/
def NoSetenv (l : List Effect) : Prop :=
  ∀ e ∈ l, ∀ k v, e ≠ Effect.Setenv k v

theorem written_append_noSetenv (key : String) (l r : List Effect) (h : NoSetenv r) :
    written key (l ++ r) = written key l := by
  have hr : written key r = [] := by
    unfold written
    rw [List.filterMap_eq_nil_iff]
    intro e he
    cases e with
    | Setenv k v => exact absurd rfl (h _ he k v)
    | Run p c => rfl
    | Stat p => rfl
    | klogInfo n m => rfl
  have : written key (l ++ r) = written key l ++ written key r := by
    simp [written, List.filterMap_append]
  rw [this, hr, List.append_nil]

/-- Every run of `PrepareGcpIfNeeded` ends in one of four ways: the environment is
refused and nothing happened; the first variable could not be set; the second could
not be set; or both were set and the project command was issued, after which no
variable is set any more. -/
theorem prepare_cases (w : World) (d : Deployer) (projectID : String) (t : List Effect) :
    (∃ e, endpointSwitch w d.Environment = .error e ∧
      PrepareGcpIfNeeded w d projectID t = (some e, t)) ∨
    (∃ endpoint err, endpointSwitch w d.Environment = .ok endpoint ∧
      w.Setenv t "CLOUDSDK_CORE_PRINT_UNHANDLED_TRACEBACKS" "1" = some err ∧
      (PrepareGcpIfNeeded w d projectID t).2 =
        t ++ [.Setenv "CLOUDSDK_CORE_PRINT_UNHANDLED_TRACEBACKS" "1"]) ∨
    (∃ endpoint err, endpointSwitch w d.Environment = .ok endpoint ∧
      w.Setenv t "CLOUDSDK_CORE_PRINT_UNHANDLED_TRACEBACKS" "1" = none ∧
      w.Setenv (t ++ [.Setenv "CLOUDSDK_CORE_PRINT_UNHANDLED_TRACEBACKS" "1"])
        "CLOUDSDK_API_ENDPOINT_OVERRIDES_CONTAINER" endpoint = some err ∧
      (PrepareGcpIfNeeded w d projectID t).2 =
        t ++ [.Setenv "CLOUDSDK_CORE_PRINT_UNHANDLED_TRACEBACKS" "1",
          .Setenv "CLOUDSDK_API_ENDPOINT_OVERRIDES_CONTAINER" endpoint]) ∨
    (∃ endpoint rest, endpointSwitch w d.Environment = .ok endpoint ∧
      w.Setenv t "CLOUDSDK_CORE_PRINT_UNHANDLED_TRACEBACKS" "1" = none ∧
      w.Setenv (t ++ [.Setenv "CLOUDSDK_CORE_PRINT_UNHANDLED_TRACEBACKS" "1"])
        "CLOUDSDK_API_ENDPOINT_OVERRIDES_CONTAINER" endpoint = none ∧
      (PrepareGcpIfNeeded w d projectID t).2 = t ++ setupEffects endpoint projectID ++ rest ∧
      NoSetenv rest) := by
  cases h0 : endpointSwitch w d.Environment with
  | error e => exact Or.inl ⟨e, rfl, prepare_invalid w d projectID t e h0⟩
  | ok endpoint =>
    cases h1 : w.Setenv t "CLOUDSDK_CORE_PRINT_UNHANDLED_TRACEBACKS" "1" with
    | some err =>
      refine Or.inr (Or.inl ⟨endpoint, err, rfl, rfl, ?_⟩)
      rw [prepare_setenv1_fails w d projectID t endpoint err h0 h1]
    | none =>
      cases h2 : w.Setenv (t ++ [.Setenv "CLOUDSDK_CORE_PRINT_UNHANDLED_TRACEBACKS" "1"])
          "CLOUDSDK_API_ENDPOINT_OVERRIDES_CONTAINER" endpoint with
      | some err =>
        refine Or.inr (Or.inr (Or.inl ⟨endpoint, err, rfl, rfl, h2, ?_⟩))
        rw [prepare_setenv2_fails w d projectID t endpoint err h0 h1 h2]
      | none =>
        refine Or.inr (Or.inr (Or.inr ⟨endpoint, ?_⟩))
        cases h3 : w.Run (t ++ (setupEffects endpoint projectID).take 2) .InheritOutput
            (.RawCommand ("gcloud config set project " ++ projectID)) with
        | some err =>
          refine ⟨[], rfl, rfl, h2, ?_, ?_⟩
          · rw [prepare_project_fails w d projectID t endpoint err h0 h1 h2 h3]; simp
          · intro e he; simp at he
        | none =>
          have hpc : ProjectConfigured w d projectID t endpoint := ⟨h0, h1, h2, h3⟩
          have hat := activate_trace w (t ++ setupEffects endpoint projectID) d.GCPServiceAccount
          cases h4 : (activateServiceAccount w (t ++ setupEffects endpoint projectID)
              d.GCPServiceAccount).1 with
          | some err =>
            rw [prepare_activation_fails w d projectID t endpoint err hpc h4]
            rcases hat with hat | hat
            · refine ⟨[], rfl, rfl, h2, ?_, ?_⟩
              · simp [hat]
              · intro e he; simp at he
            · refine ⟨_, rfl, rfl, h2, hat, ?_⟩
              intro e he; simp at he; subst he; intro k v hh; cases hh
          | none =>
            have hca : CredentialsActivated w d projectID t endpoint := ⟨hpc, h4⟩
            cases hk : d.GCPSSHKeyIgnored with
            | true =>
              rw [prepare_keys_ignored w d projectID t endpoint hca hk]
              rcases hat with hat | hat
              · refine ⟨[], rfl, rfl, h2, ?_, ?_⟩
                · simp [hat]
                · intro e he; simp at he
              · refine ⟨_, rfl, rfl, h2, hat, ?_⟩
                intro e he; simp at he; subst he; intro k v hh; cases hh
            | false =>
              have hshape : ∀ tail : List Effect, NoSetenv tail →
                  ∃ rest, keyCheckTrace w d projectID t endpoint ++ tail =
                    t ++ setupEffects endpoint projectID ++ rest ∧ NoSetenv rest := by
                intro tail htail
                unfold keyCheckTrace
                rcases hat with hat | hat
                · refine ⟨Effect.klogInfo 1 "Checking existing of GCP ssh keys..." :: tail,
                    by simp [hat], ?_⟩
                  intro e he k v hh
                  rcases List.mem_cons.mp he with rfl | he
                  · cases hh
                  · exact htail e he k v hh
                · refine ⟨Effect.Run .InheritOutput (.RawCommand
                    ("gcloud auth activate-service-account --key-file=" ++ d.GCPServiceAccount)) ::
                    Effect.klogInfo 1 "Checking existing of GCP ssh keys..." :: tail,
                    by simp [hat], ?_⟩
                  intro e he k v hh
                  rcases List.mem_cons.mp he with rfl | he
                  · cases hh
                  · rcases List.mem_cons.mp he with rfl | he
                    · cases hh
                    · exact htail e he k v hh
              cases hs : w.Stat (keyCheckTrace w d projectID t endpoint)
                  (privateKeyPath w (keyCheckTrace w d projectID t endpoint)) with
              | some cause =>
                rw [prepare_private_key_missing w d projectID t endpoint cause hca hk hs]
                obtain ⟨rest, hr, hn⟩ := hshape [.Stat (privateKeyPath w
                  (keyCheckTrace w d projectID t endpoint))]
                  (by intro e he k v hh; simp at he; subst he; cases hh)
                exact ⟨rest, rfl, rfl, h2, hr, hn⟩
              | none =>
                have htwo : NoSetenv [.Stat (privateKeyPath w
                    (keyCheckTrace w d projectID t endpoint)),
                    .Stat (privateKeyPath w (keyCheckTrace w d projectID t endpoint) ++ ".pub")] := by
                  intro e he k v hh
                  simp at he
                  rcases he with rfl | rfl <;> cases hh
                obtain ⟨rest, hr, hn⟩ := hshape _ htwo
                cases hp : w.Stat (keyCheckTrace w d projectID t endpoint ++
                    [.Stat (privateKeyPath w (keyCheckTrace w d projectID t endpoint))])
                    (privateKeyPath w (keyCheckTrace w d projectID t endpoint) ++ ".pub") with
                | some cause =>
                  rw [prepare_public_key_missing w d projectID t endpoint cause hca hk hs hp]
                  exact ⟨rest, rfl, rfl, h2, hr, hn⟩
                | none =>
                  rw [prepare_keys_present w d projectID t endpoint hca hk hs hp]
                  exact ⟨rest, rfl, rfl, h2, hr, hn⟩

theorem checked_activate (w : World) (t : List Effect) (path : String) :
    checked (activateServiceAccount w t path).2 = checked t := by
  rcases activate_trace w t path with h | h <;> rw [h]
  simp [checked, List.filterMap_append]

theorem checked_setup (t : List Effect) (endpoint projectID : String) :
    checked (t ++ setupEffects endpoint projectID) = checked t := by
  simp [checked, List.filterMap_append, setupEffects]

theorem checked_keyCheckTrace (w : World) (d : Deployer) (projectID : String)
    (t : List Effect) (endpoint : String) :
    checked (keyCheckTrace w d projectID t endpoint) = checked t := by
  unfold keyCheckTrace
  have h : ∀ l : List Effect,
      checked (l ++ [.klogInfo 1 "Checking existing of GCP ssh keys..."]) = checked l := by
    intro l; simp [checked, List.filterMap_append]
  rw [h, checked_activate, checked_setup]

/-! ## Lemmas on strings -/

/-- A character that `%q` leaves as it is: printable ASCII other than the double quote
and the backslash. -/
def PlainChar (c : Char) : Prop :=
  0x20 ≤ c.toNat ∧ c.toNat ≤ 0x7E ∧ c.toNat ≠ 34 ∧ c.toNat ≠ 92

instance (c : Char) : Decidable (PlainChar c) := by
  unfold PlainChar; exact inferInstance

theorem appendEscapedRune_plain (tbl : Char → Bool) (c : Char) (h : PlainChar c) :
    appendEscapedRune tbl c = [c] := by
  obtain ⟨h1, h2, h3, h4⟩ := h
  have hp : IsPrint tbl c = true := by
    unfold IsPrint
    rw [if_pos (by omega), if_pos ⟨h1, h2⟩]
  unfold appendEscapedRune
  rw [if_neg (by omega), if_pos hp]

theorem Quote_plain (tbl : Char → Bool) (s : String) (h : ∀ c ∈ s.data, PlainChar c) :
    Quote tbl s = "\"" ++ s ++ "\"" := by
  have hl : ∀ l : List Char, (∀ c ∈ l, PlainChar c) →
      (l.map (appendEscapedRune tbl)).flatten = l := by
    intro l
    induction l with
    | nil => intro _; rfl
    | cons c l ih =>
      intro hc
      simp only [List.map_cons, List.flatten_cons]
      rw [appendEscapedRune_plain tbl c (hc c (List.mem_cons_self _ _)),
        ih (fun x hx => hc x (List.mem_cons_of_mem _ hx))]
      rfl
  apply String.ext
  unfold Quote
  simp only [String.data_append]
  rw [hl s.data h]
  rfl

/-! ## The claims -/

/-- C1: endpoint resolution in `PrepareGcpIfNeeded` equals the reference resolver.  For
every environment string and every URL pattern, the `switch` of the code yields what the
reference `EnvironmentResolver` yields; each of `test`, `staging`, `staging2`, `prod`
gives its fixed URL whether or not the pattern matches it; a string that is none of the
four and matches the pattern gives itself; and once the first variable is set, the one
value the run hands to `os.Setenv` for `CLOUDSDK_API_ENDPOINT_OVERRIDES_CONTAINER` is
that endpoint. -/
theorem C1_endpoint_resolution (w : World) (d : Deployer) (projectID : String)
    (t : List Effect) :
    (endpointSwitch w d.Environment).toOption =
      EnvironmentResolver w.urlRe.MatchString d.Environment ∧
    (d.Environment = "test" →
      endpointSwitch w d.Environment = .ok "https://test-container.sandbox.googleapis.com/") ∧
    (d.Environment = "staging" →
      endpointSwitch w d.Environment = .ok "https://staging-container.sandbox.googleapis.com/") ∧
    (d.Environment = "staging2" →
      endpointSwitch w d.Environment = .ok "https://staging2-container.sandbox.googleapis.com/") ∧
    (d.Environment = "prod" →
      endpointSwitch w d.Environment = .ok "https://container.googleapis.com/") ∧
    (d.Environment ∉ ["test", "staging", "staging2", "prod"] →
      w.urlRe.MatchString d.Environment = true →
      endpointSwitch w d.Environment = .ok d.Environment) ∧
    (∀ endpoint, endpointSwitch w d.Environment = .ok endpoint →
      w.Setenv t "CLOUDSDK_CORE_PRINT_UNHANDLED_TRACEBACKS" "1" = none →
      written "CLOUDSDK_API_ENDPOINT_OVERRIDES_CONTAINER" (PrepareGcpIfNeeded w d projectID t).2 =
        written "CLOUDSDK_API_ENDPOINT_OVERRIDES_CONTAINER" t ++ [endpoint]) := by
  refine ⟨?_, ?_, ?_, ?_, ?_, ?_, ?_⟩
  · unfold endpointSwitch EnvironmentResolver namedEndpoints
    by_cases h1 : d.Environment = "test"
    · simp [h1, List.lookup, Except.toOption]
    by_cases h2 : d.Environment = "staging"
    · simp [h2, List.lookup, Except.toOption]
    by_cases h3 : d.Environment = "staging2"
    · simp [h3, List.lookup, Except.toOption]
    by_cases h4 : d.Environment = "prod"
    · simp [h4, List.lookup, Except.toOption]
    have b1 : (d.Environment == "test") = false := by simpa using h1
    have b2 : (d.Environment == "staging") = false := by simpa using h2
    have b3 : (d.Environment == "staging2") = false := by simpa using h3
    have b4 : (d.Environment == "prod") = false := by simpa using h4
    by_cases hu : w.urlRe.MatchString d.Environment = true
    · simp [h1, h2, h3, h4, hu, List.lookup, Except.toOption, b1, b2, b3, b4]
    · simp [h1, h2, h3, h4, hu, List.lookup, Except.toOption, b1, b2, b3, b4]
  · intro h; rw [h]; simp [endpointSwitch]
  · intro h; rw [h]; simp [endpointSwitch]
  · intro h; rw [h]; simp [endpointSwitch]
  · intro h; rw [h]; simp [endpointSwitch]
  · intro hn hu
    simp at hn
    simp [endpointSwitch, hn, hu]
  · intro endpoint h0 h1
    rcases prepare_cases w d projectID t with
      ⟨e, he, _⟩ | ⟨ep, err, _, herr, _⟩ | ⟨ep, err, hep, _, _, htr⟩ | ⟨ep, rest, hep, _, _, htr, hno⟩
    · rw [h0] at he; cases he
    · rw [h1] at herr; cases herr
    · rw [h0] at hep; cases hep
      rw [htr]
      simp [written, List.filterMap_append]
    · rw [h0] at hep; cases hep
      rw [htr, written_append_noSetenv _ _ _ hno]
      simp [written, List.filterMap_append, setupEffects]

/-- C1, at the environment `prod` and at a URL of its own, in the sample world. -/
theorem C1_endpoint_resolution_witness :
    written "CLOUDSDK_API_ENDPOINT_OVERRIDES_CONTAINER"
      (PrepareGcpIfNeeded (sampleWorld [] []) ⟨"prod", "", true⟩ "demo-proj" []).2 =
      written "CLOUDSDK_API_ENDPOINT_OVERRIDES_CONTAINER" [] ++
        ["https://container.googleapis.com/"] ∧
    endpointSwitch (sampleWorld [] []) "https://custom.example.com/" =
      .ok "https://custom.example.com/" :=
  ⟨(C1_endpoint_resolution (sampleWorld [] []) ⟨"prod", "", true⟩ "demo-proj" []).2.2.2.2.2.2
      "https://container.googleapis.com/"
      ((C1_endpoint_resolution (sampleWorld [] []) ⟨"prod", "", true⟩ "demo-proj" []).2.2.2.2.1 rfl)
      (by decide),
   (C1_endpoint_resolution (sampleWorld [] []) ⟨"https://custom.example.com/", "", true⟩
      "demo-proj" []).2.2.2.2.2.1 (by decide) (by decide)⟩

/-- C2: for every environment string that is none of `test`, `staging`, `staging2`,
`prod` and does not match the URL pattern, `PrepareGcpIfNeeded` returns the
invalid-environment error, whose message names the accepted set, the pattern and the
offending value (quoted by `%q`), and the trace at return is the trace at the call: no
variable was set, no command run and no file checked. -/
theorem C2_invalid_environment (w : World) (d : Deployer) (projectID : String)
    (t : List Effect)
    (hn : d.Environment ∉ ["test", "staging", "staging2", "prod"])
    (hu : w.urlRe.MatchString d.Environment = false) :
    PrepareGcpIfNeeded w d projectID t =
      (some (.errorString
        ("--environment must be one of \x7btest,staging,staging2,prod\x7d or match "
          ++ w.urlRe.source ++ ", found " ++ Quote w.printTable d.Environment)), t) := by
  apply prepare_invalid
  simp at hn
  simp [endpointSwitch, hn, hu]

/-- C2, at the environment `dev` in the sample world. -/
theorem C2_invalid_environment_witness :
    PrepareGcpIfNeeded (sampleWorld [] []) ⟨"dev", "", false⟩ "demo-proj" [] =
      (some (.errorString
        ("--environment must be one of \x7btest,staging,staging2,prod\x7d or match "
          ++ "(?s)^https://.*/$" ++ ", found " ++ "\"dev\"")), []) :=
  C2_invalid_environment (sampleWorld [] []) ⟨"dev", "", false⟩ "demo-proj" []
    (by decide) (by decide)

/-- C3: `PrepareGcpIfNeeded` short-circuits at project configuration.  When the
environment resolves, both variables are set and the `gcloud config set project`
command fails with cause `e`, the run ends with that command: no service account is
activated and no key file is checked, and the returned error has the project ID in its
message and unwraps to `e`. -/
theorem C3_project_config_short_circuit (w : World) (d : Deployer) (projectID : String)
    (t : List Effect) (endpoint : String) (e : GoError)
    (h0 : endpointSwitch w d.Environment = .ok endpoint)
    (h1 : w.Setenv t "CLOUDSDK_CORE_PRINT_UNHANDLED_TRACEBACKS" "1" = none)
    (h2 : w.Setenv (t ++ [.Setenv "CLOUDSDK_CORE_PRINT_UNHANDLED_TRACEBACKS" "1"])
      "CLOUDSDK_API_ENDPOINT_OVERRIDES_CONTAINER" endpoint = none)
    (h3 : w.Run (t ++ (setupEffects endpoint projectID).take 2) .InheritOutput
      (.RawCommand ("gcloud config set project " ++ projectID)) = some e) :
    ∃ err, (PrepareGcpIfNeeded w d projectID t).1 = some err ∧
      err.Error = "failed to set project " ++ projectID ++ ": " ++ e.Error ∧
      err.Unwrap = some e ∧
      (PrepareGcpIfNeeded w d projectID t).2 = t ++ setupEffects endpoint projectID ∧
      invocations (PrepareGcpIfNeeded w d projectID t).2 = invocations t ++
        [(.InheritOutput, .RawCommand ("gcloud config set project " ++ projectID))] ∧
      checked (PrepareGcpIfNeeded w d projectID t).2 = checked t := by
  rw [prepare_project_fails w d projectID t endpoint e h0 h1 h2 h3]
  refine ⟨_, rfl, rfl, rfl, rfl, ?_, ?_⟩
  · simp [invocations, setupEffects, List.filterMap_append]
  · simp [checked, setupEffects, List.filterMap_append]

/-- C3, in the sample world where `gcloud config set project demo-proj` exits with
status 1. -/
theorem C3_project_config_short_circuit_witness :
    ∃ err, (PrepareGcpIfNeeded
        (sampleWorld [.RawCommand "gcloud config set project demo-proj"] [])
        ⟨"prod", "/key.json", false⟩ "demo-proj" []).1 = some err ∧
      err.Error = "failed to set project " ++ "demo-proj" ++ ": " ++
        (GoError.exitError "exit status 1" "").Error ∧
      err.Unwrap = some (.exitError "exit status 1" "") ∧
      (PrepareGcpIfNeeded
        (sampleWorld [.RawCommand "gcloud config set project demo-proj"] [])
        ⟨"prod", "/key.json", false⟩ "demo-proj" []).2 =
        [] ++ setupEffects "https://container.googleapis.com/" "demo-proj" ∧
      invocations (PrepareGcpIfNeeded
        (sampleWorld [.RawCommand "gcloud config set project demo-proj"] [])
        ⟨"prod", "/key.json", false⟩ "demo-proj" []).2 = invocations [] ++
        [(.InheritOutput, .RawCommand ("gcloud config set project " ++ "demo-proj"))] ∧
      checked (PrepareGcpIfNeeded
        (sampleWorld [.RawCommand "gcloud config set project demo-proj"] [])
        ⟨"prod", "/key.json", false⟩ "demo-proj" []).2 = checked [] :=
  C3_project_config_short_circuit
    (sampleWorld [.RawCommand "gcloud config set project demo-proj"] [])
    ⟨"prod", "/key.json", false⟩ "demo-proj" [] "https://container.googleapis.com/"
    (.exitError "exit status 1" "") (by decide) (by decide) (by decide) (by decide)

/-- C4, as stated, fails: a run whose second `os.Setenv` fails (the endpoint holds a NUL)
returns exactly the error `os.Setenv` gave, and a run whose service-account activation
fails returns exactly the error of that command; neither carries any context. -/
theorem C4_raw_errors_counterexample :
    (sampleWorld [] []).Setenv [.Setenv "CLOUDSDK_CORE_PRINT_UNHANDLED_TRACEBACKS" "1"]
        "CLOUDSDK_API_ENDPOINT_OVERRIDES_CONTAINER" "https://\x00/" =
      some (.errorString "setenv: invalid argument") ∧
    (PrepareGcpIfNeeded (sampleWorld [] []) ⟨"https://\x00/", "", true⟩ "demo-proj" []).1 =
      some (.errorString "setenv: invalid argument") ∧
    (sampleWorld [.RawCommand "gcloud auth activate-service-account --key-file=/key.json"] []).Run
        (setupEffects "https://container.googleapis.com/" "demo-proj") .InheritOutput
        (.RawCommand "gcloud auth activate-service-account --key-file=/key.json") =
      some (.exitError "exit status 1" "") ∧
    (PrepareGcpIfNeeded
        (sampleWorld [.RawCommand "gcloud auth activate-service-account --key-file=/key.json"] [])
        ⟨"prod", "/key.json", true⟩ "demo-proj" []).1 =
      some (.exitError "exit status 1" "") := by
  refine ⟨?_, ?_, ?_, ?_⟩ <;> decide

/-- C4, amended: the errors of `PrepareGcpIfNeeded` that come from setting the variables
and from activating the service account.  A failure to set
`CLOUDSDK_CORE_PRINT_UNHANDLED_TRACEBACKS` is returned with static context, the message
`could not set CLOUDSDK_CORE_PRINT_UNHANDLED_TRACEBACKS=1: ` before the description of
the cause.  A failure to set `CLOUDSDK_API_ENDPOINT_OVERRIDES_CONTAINER`, and a failure
of the service-account activation command, are returned as they are. -/
theorem C4_error_context (w : World) (d : Deployer) (projectID : String) (t : List Effect)
    (endpoint : String) (h0 : endpointSwitch w d.Environment = .ok endpoint) :
    (∀ e, w.Setenv t "CLOUDSDK_CORE_PRINT_UNHANDLED_TRACEBACKS" "1" = some e →
      (PrepareGcpIfNeeded w d projectID t).1 = some (.errorString
        ("could not set CLOUDSDK_CORE_PRINT_UNHANDLED_TRACEBACKS=1: " ++ e.Error))) ∧
    (∀ e, w.Setenv t "CLOUDSDK_CORE_PRINT_UNHANDLED_TRACEBACKS" "1" = none →
      w.Setenv (t ++ [.Setenv "CLOUDSDK_CORE_PRINT_UNHANDLED_TRACEBACKS" "1"])
        "CLOUDSDK_API_ENDPOINT_OVERRIDES_CONTAINER" endpoint = some e →
      (PrepareGcpIfNeeded w d projectID t).1 = some e) ∧
    (∀ e, ProjectConfigured w d projectID t endpoint →
      d.GCPServiceAccount ≠ "" →
      w.Run (t ++ setupEffects endpoint projectID) .InheritOutput (.RawCommand
        ("gcloud auth activate-service-account --key-file=" ++ d.GCPServiceAccount)) = some e →
      (PrepareGcpIfNeeded w d projectID t).1 = some e) := by
  refine ⟨?_, ?_, ?_⟩
  · intro e h1
    rw [prepare_setenv1_fails w d projectID t endpoint e h0 h1]
  · intro e h1 h2
    rw [prepare_setenv2_fails w d projectID t endpoint e h0 h1 h2]
  · intro e hpc hsa hrun
    have h4 : (activateServiceAccount w (t ++ setupEffects endpoint projectID)
        d.GCPServiceAccount).1 = some e := by
      simp [activateServiceAccount, hsa, runWithOutput, hrun]
    rw [prepare_activation_fails w d projectID t endpoint e hpc h4]

/-- C4 amended, in the sample world: the endpoint with a NUL, whose setting fails. -/
theorem C4_error_context_witness :
    (PrepareGcpIfNeeded (sampleWorld [] []) ⟨"https://\x00/", "", true⟩ "demo-proj" []).1 =
      some (.errorString "setenv: invalid argument") :=
  (C4_error_context (sampleWorld [] []) ⟨"https://\x00/", "", true⟩ "demo-proj" []
    "https://\x00/" (by decide)).2.1 (.errorString "setenv: invalid argument")
    (by decide) (by decide)

/-- C5, as stated, fails: in the sample world the environment `https://` NUL `/` resolves,
but the second variable cannot be set, so the run ends after the two attempts and its
trace does not begin with the three effects; no command is issued at all. -/
theorem C5_trace_counterexample :
    endpointSwitch (sampleWorld [] []) "https://\x00/" = .ok "https://\x00/" ∧
    (¬ ∃ rest, (PrepareGcpIfNeeded (sampleWorld [] []) ⟨"https://\x00/", "", true⟩
      "demo-proj" []).2 = setupEffects "https://\x00/" "demo-proj" ++ rest) ∧
    invocations (PrepareGcpIfNeeded (sampleWorld [] []) ⟨"https://\x00/", "", true⟩
      "demo-proj" []).2 = [] := by
  have htr : (PrepareGcpIfNeeded (sampleWorld [] []) ⟨"https://\x00/", "", true⟩
      "demo-proj" []).2 = [.Setenv "CLOUDSDK_CORE_PRINT_UNHANDLED_TRACEBACKS" "1",
        .Setenv "CLOUDSDK_API_ENDPOINT_OVERRIDES_CONTAINER" "https://\x00/"] := by decide
  refine ⟨by decide, ?_, by decide⟩
  rintro ⟨rest, hr⟩
  rw [htr] at hr
  simp [setupEffects] at hr

/-- C5, amended: in every run of `PrepareGcpIfNeeded` whose environment resolves and in
which both variables are set successfully, the effects of the run begin, in this order,
with: set `CLOUDSDK_CORE_PRINT_UNHANDLED_TRACEBACKS` to `1`, set
`CLOUDSDK_API_ENDPOINT_OVERRIDES_CONTAINER` to the resolved endpoint, run
`gcloud config set project <projectID>` with inherited output.  And in every run
whatsoever, a command is issued only after both variables have been set, successfully,
to those values. -/
theorem C5_setup_order (w : World) (d : Deployer) (projectID : String) (t : List Effect) :
    (∀ endpoint, endpointSwitch w d.Environment = .ok endpoint →
      w.Setenv t "CLOUDSDK_CORE_PRINT_UNHANDLED_TRACEBACKS" "1" = none →
      w.Setenv (t ++ [.Setenv "CLOUDSDK_CORE_PRINT_UNHANDLED_TRACEBACKS" "1"])
        "CLOUDSDK_API_ENDPOINT_OVERRIDES_CONTAINER" endpoint = none →
      ∃ rest, (PrepareGcpIfNeeded w d projectID t).2 =
        t ++ setupEffects endpoint projectID ++ rest) ∧
    (∀ pre policy cmd post,
      (PrepareGcpIfNeeded w d projectID t).2 = t ++ pre ++ Effect.Run policy cmd :: post →
      ∃ endpoint mid, endpointSwitch w d.Environment = .ok endpoint ∧
        w.Setenv t "CLOUDSDK_CORE_PRINT_UNHANDLED_TRACEBACKS" "1" = none ∧
        w.Setenv (t ++ [.Setenv "CLOUDSDK_CORE_PRINT_UNHANDLED_TRACEBACKS" "1"])
          "CLOUDSDK_API_ENDPOINT_OVERRIDES_CONTAINER" endpoint = none ∧
        pre = .Setenv "CLOUDSDK_CORE_PRINT_UNHANDLED_TRACEBACKS" "1" ::
          .Setenv "CLOUDSDK_API_ENDPOINT_OVERRIDES_CONTAINER" endpoint :: mid) := by
  constructor
  · intro endpoint h0 h1 h2
    rcases prepare_cases w d projectID t with
      ⟨e, he, _⟩ | ⟨ep, err, _, herr, _⟩ | ⟨ep, err, hep, _, herr, _⟩ | ⟨ep, rest, hep, _, _, htr, _⟩
    · rw [h0] at he; cases he
    · rw [h1] at herr; cases herr
    · rw [h0] at hep; cases hep
      rw [h2] at herr; cases herr
    · rw [h0] at hep; cases hep
      exact ⟨rest, htr⟩
  · intro pre policy cmd post hrun
    rcases prepare_cases w d projectID t with
      ⟨e, _, htr⟩ | ⟨ep, err, _, _, htr⟩ | ⟨ep, err, _, _, _, htr⟩ | ⟨ep, rest, hep, h1, h2, htr, _⟩
    · rw [htr] at hrun
      have := congrArg List.length hrun
      simp at this
    · rw [htr, List.append_assoc] at hrun
      have hh := List.append_cancel_left hrun
      rcases pre with _ | ⟨a, pre⟩
      · simp at hh
      · have := congrArg List.length hh
        simp at this
    · rw [htr, List.append_assoc] at hrun
      have hh := List.append_cancel_left hrun
      rcases pre with _ | ⟨a, _ | ⟨b, pre⟩⟩
      · simp at hh
      · simp at hh
      · have := congrArg List.length hh
        simp at this
    · rw [htr, List.append_assoc, List.append_assoc] at hrun
      have hh := List.append_cancel_left hrun
      rcases pre with _ | ⟨a, _ | ⟨b, mid⟩⟩
      · simp [setupEffects] at hh
      · simp [setupEffects] at hh
      · simp [setupEffects] at hh
        obtain ⟨ha, hb, _⟩ := hh
        exact ⟨ep, mid, hep, h1, h2, by rw [← ha, ← hb]⟩

/-- C5 amended, at the environment `prod` and the project `demo-proj`: the override is set
to `https://container.googleapis.com/`, then `gcloud config set project demo-proj` runs. -/
theorem C5_setup_order_witness :
    ∃ rest, (PrepareGcpIfNeeded (sampleWorld [] []) ⟨"prod", "", false⟩ "demo-proj" []).2 =
      [] ++ [.Setenv "CLOUDSDK_CORE_PRINT_UNHANDLED_TRACEBACKS" "1",
        .Setenv "CLOUDSDK_API_ENDPOINT_OVERRIDES_CONTAINER" "https://container.googleapis.com/",
        .Run .InheritOutput (.RawCommand "gcloud config set project demo-proj")] ++ rest :=
  (C5_setup_order (sampleWorld [] []) ⟨"prod", "", false⟩ "demo-proj" []).1
    "https://container.googleapis.com/" (by decide) (by decide) (by decide)

/-- C6: `activateServiceAccount` does nothing and succeeds on the empty path, and for
every non-empty path issues exactly one command, with inherited output,
`gcloud auth activate-service-account --key-file=` followed by the path, and returns
what that command returns. -/
theorem C6_activate_service_account (w : World) (t : List Effect) :
    activateServiceAccount w t "" = (none, t) ∧
    ∀ path, path ≠ "" →
      activateServiceAccount w t path =
        (w.Run t .InheritOutput
          (.RawCommand ("gcloud auth activate-service-account --key-file=" ++ path)),
         t ++ [.Run .InheritOutput
          (.RawCommand ("gcloud auth activate-service-account --key-file=" ++ path))]) := by
  constructor
  · simp [activateServiceAccount]
  · intro path hp
    simp [activateServiceAccount, hp, runWithOutput]

/-- C6, at the path `/key.json` in a world where the activation exits with status 1. -/
theorem C6_activate_service_account_witness :
    activateServiceAccount
        (sampleWorld [.RawCommand "gcloud auth activate-service-account --key-file=/key.json"] [])
        [] "/key.json" =
      (some (.exitError "exit status 1" ""),
       [.Run .InheritOutput
        (.RawCommand "gcloud auth activate-service-account --key-file=/key.json")]) :=
  (C6_activate_service_account
    (sampleWorld [.RawCommand "gcloud auth activate-service-account --key-file=/key.json"] [])
    []).2 "/key.json" (by decide)

/-- C7: the key-verification step of `PrepareGcpIfNeeded`, in every run in which steps 1
to 4 succeed.  With `GCPSSHKeyIgnored` set the run succeeds whatever the files are and
checks no path.  Without it the run succeeds exactly when `os.Stat` finds both the
private key (`google_compute_engine` in `.ssh` under `$HOME`) and that path with `.pub`
appended; otherwise the error is the `stat` error that carries the first missing path,
the private key being checked first and the `.pub` file only after it was found. -/
theorem C7_key_verification (w : World) (d : Deployer) (projectID : String)
    (t : List Effect) (endpoint : String)
    (h : CredentialsActivated w d projectID t endpoint) :
    (d.GCPSSHKeyIgnored = true →
      (PrepareGcpIfNeeded w d projectID t).1 = none ∧
      checked (PrepareGcpIfNeeded w d projectID t).2 = checked t) ∧
    (d.GCPSSHKeyIgnored = false →
      ((PrepareGcpIfNeeded w d projectID t).1 = none ↔
        (w.Stat (keyCheckTrace w d projectID t endpoint)
          (privateKeyPath w (keyCheckTrace w d projectID t endpoint)) = none ∧
         w.Stat (keyCheckTrace w d projectID t endpoint ++
            [.Stat (privateKeyPath w (keyCheckTrace w d projectID t endpoint))])
          (privateKeyPath w (keyCheckTrace w d projectID t endpoint) ++ ".pub") = none)) ∧
      (∀ cause, w.Stat (keyCheckTrace w d projectID t endpoint)
          (privateKeyPath w (keyCheckTrace w d projectID t endpoint)) = some cause →
        (PrepareGcpIfNeeded w d projectID t).1 = some (.pathError "stat"
          (privateKeyPath w (keyCheckTrace w d projectID t endpoint)) cause) ∧
        checked (PrepareGcpIfNeeded w d projectID t).2 =
          checked t ++ [privateKeyPath w (keyCheckTrace w d projectID t endpoint)]) ∧
      (∀ cause, w.Stat (keyCheckTrace w d projectID t endpoint)
          (privateKeyPath w (keyCheckTrace w d projectID t endpoint)) = none →
        w.Stat (keyCheckTrace w d projectID t endpoint ++
            [.Stat (privateKeyPath w (keyCheckTrace w d projectID t endpoint))])
          (privateKeyPath w (keyCheckTrace w d projectID t endpoint) ++ ".pub") = some cause →
        (PrepareGcpIfNeeded w d projectID t).1 = some (.pathError "stat"
          (privateKeyPath w (keyCheckTrace w d projectID t endpoint) ++ ".pub") cause) ∧
        checked (PrepareGcpIfNeeded w d projectID t).2 =
          checked t ++ [privateKeyPath w (keyCheckTrace w d projectID t endpoint),
            privateKeyPath w (keyCheckTrace w d projectID t endpoint) ++ ".pub"])) := by
  have hchk : ∀ l : List String,
      checked (keyCheckTrace w d projectID t endpoint ++ l.map Effect.Stat) = checked t ++ l := by
    intro l
    have : ∀ m : List String, checked (m.map Effect.Stat) = m := by
      intro m
      induction m with
      | nil => rfl
      | cons a m ih => simp only [checked, List.map_cons, List.filterMap_cons] at ih ⊢; rw [ih]
    have happ : ∀ a b : List Effect, checked (a ++ b) = checked a ++ checked b := by
      intro a b; simp [checked, List.filterMap_append]
    rw [happ, checked_keyCheckTrace, this]
  constructor
  · intro hk
    rw [prepare_keys_ignored w d projectID t endpoint h hk]
    exact ⟨rfl, by simp only [checked_activate, checked_setup]⟩
  · intro hk
    refine ⟨?_, ?_, ?_⟩
    · constructor
      · intro hres
        cases hs : w.Stat (keyCheckTrace w d projectID t endpoint)
            (privateKeyPath w (keyCheckTrace w d projectID t endpoint)) with
        | some cause =>
          rw [prepare_private_key_missing w d projectID t endpoint cause h hk hs] at hres
          cases hres
        | none =>
          cases hp : w.Stat (keyCheckTrace w d projectID t endpoint ++
              [.Stat (privateKeyPath w (keyCheckTrace w d projectID t endpoint))])
              (privateKeyPath w (keyCheckTrace w d projectID t endpoint) ++ ".pub") with
          | some cause =>
            rw [prepare_public_key_missing w d projectID t endpoint cause h hk hs hp] at hres
            cases hres
          | none => exact ⟨rfl, rfl⟩
      · rintro ⟨hs, hp⟩
        rw [prepare_keys_present w d projectID t endpoint h hk hs hp]
    · intro cause hs
      rw [prepare_private_key_missing w d projectID t endpoint cause h hk hs]
      exact ⟨rfl, hchk [_]⟩
    · intro cause hs hp
      rw [prepare_public_key_missing w d projectID t endpoint cause h hk hs hp]
      exact ⟨rfl, hchk [_, _]⟩

/-- C7, in the sample world with only the private key present: steps 1 to 4 succeed and
the run fails on the `.pub` path. -/
theorem C7_key_verification_witness :
    (PrepareGcpIfNeeded (sampleWorld [] ["/home/prow/.ssh/google_compute_engine"])
        ⟨"prod", "", false⟩ "demo-proj" []).1 =
      some (.pathError "stat" "/home/prow/.ssh/google_compute_engine.pub"
        (.errorString "no such file or directory")) ∧
    checked (PrepareGcpIfNeeded (sampleWorld [] ["/home/prow/.ssh/google_compute_engine"])
        ⟨"prod", "", false⟩ "demo-proj" []).2 =
      checked [] ++ ["/home/prow/.ssh/google_compute_engine",
        "/home/prow/.ssh/google_compute_engine.pub"] :=
  ((C7_key_verification (sampleWorld [] ["/home/prow/.ssh/google_compute_engine"])
      ⟨"prod", "", false⟩ "demo-proj" [] "https://container.googleapis.com/"
      (by decide)).2 rfl).2.2
    (.errorString "no such file or directory") (by decide) (by decide)

/-- C8, as stated, fails: for the captured standard error `permission denied` with its
line feed, `execError` prints the line feed escaped, so the result does not contain the
captured content itself. -/
theorem C8_substring_counterexample :
    execError (fun _ => false) (.exitError "exit status 1" "permission denied\n") =
      "exit status 1 (output: \"permission denied\\n\")" ∧
    ¬ ∃ a b : String,
      execError (fun _ => false) (.exitError "exit status 1" "permission denied\n") =
        a ++ "permission denied\n" ++ b := by
  have h : execError (fun _ => false) (.exitError "exit status 1" "permission denied\n") =
      "exit status 1 (output: \"permission denied\\n\")" := by decide
  refine ⟨h, ?_⟩
  rintro ⟨a, b, hab⟩
  rw [h] at hab
  have hmem : Char.ofNat 10 ∈ (a ++ "permission denied\n" ++ b).data := by
    simp only [String.data_append, List.mem_append]
    exact Or.inl (Or.inr (by decide))
  rw [← hab] at hmem
  revert hmem
  decide

/-- C8, amended: for an exit error with captured standard error `s`, `execError` is the
error's default description followed by a space and, in parentheses, the label
`output: ` and `s` quoted as by `%q` (between double quotes, with quotes, backslashes
and non-printable characters escaped); when `s` consists of printable ASCII characters
other than the double quote and the backslash, that is `s` itself between double quotes,
so the result contains `s`.  For every error that is not an exit error, `execError` is
exactly the error's default description. -/
theorem C8_execError (tbl : Char → Bool) :
    (∀ state s, execError tbl (.exitError state s) =
      (GoError.exitError state s).Error ++ " (output: " ++ Quote tbl s ++ ")") ∧
    (∀ state s, (∀ c ∈ s.data, PlainChar c) →
      execError tbl (.exitError state s) =
        (GoError.exitError state s).Error ++ " (output: \"" ++ s ++ "\")" ∧
      ∃ a b : String, execError tbl (.exitError state s) = a ++ s ++ b) ∧
    (∀ err, (∀ state s, err ≠ .exitError state s) → execError tbl err = err.Error) := by
  refine ⟨fun _ _ => rfl, ?_, ?_⟩
  · intro state s hs
    have h : execError tbl (.exitError state s) =
        (GoError.exitError state s).Error ++ " (output: \"" ++ s ++ "\")" := by
      simp only [execError, Quote_plain tbl s hs]
      apply String.ext
      simp [String.data_append]
    refine ⟨h, (GoError.exitError state s).Error ++ " (output: \"", "\")", ?_⟩
    rw [h]
  · intro err hne
    cases err with
    | exitError state s => exact absurd rfl (hne state s)
    | errorString m => rfl
    | wrapError m e => rfl
    | pathError o q e => rfl

/-- C8 amended, at the standard error `permission denied`. -/
theorem C8_execError_witness :
    execError (fun _ => false) (.exitError "exit status 1" "permission denied") =
        (GoError.exitError "exit status 1" "permission denied").Error ++
          " (output: \"" ++ "permission denied" ++ "\")" ∧
    (∃ a b : String, execError (fun _ => false)
      (.exitError "exit status 1" "permission denied") = a ++ "permission denied" ++ b) ∧
    execError (fun _ => false) (.wrapError "failed to set project p: exit status 1"
        (.exitError "exit status 1" "permission denied")) =
      "failed to set project p: exit status 1" :=
  ⟨((C8_execError (fun _ => false)).2.1 "exit status 1" "permission denied" (by decide)).1,
   ((C8_execError (fun _ => false)).2.1 "exit status 1" "permission denied" (by decide)).2,
   (C8_execError (fun _ => false)).2.2 _ (fun _ _ hh => by cases hh)⟩

/-- C9: for every project, location and cluster name, `getClusterCredentials` issues
exactly one command, with inherited output: `gcloud` with the arguments `container`,
`clusters`, `get-credentials`, the cluster, `--project=` followed by the project, the
location, in this order (`containerArgs` puts `container` before its arguments and
changes nothing else).  It returns nil exactly when that command succeeds, and otherwise
the error whose message is `error executing get-credentials: ` followed by the
description of the cause. -/
theorem C9_get_cluster_credentials (w : World) (t : List Effect)
    (project loc cluster : String) :
    (getClusterCredentials w t project loc cluster).2 =
      t ++ [.Run .InheritOutput (.Command "gcloud"
        ["container", "clusters", "get-credentials", cluster, "--project=" ++ project, loc])] ∧
    ((getClusterCredentials w t project loc cluster).1 = none ↔
      w.Run t .InheritOutput (.Command "gcloud"
        ["container", "clusters", "get-credentials", cluster, "--project=" ++ project, loc])
        = none) ∧
    (∀ e, w.Run t .InheritOutput (.Command "gcloud"
        ["container", "clusters", "get-credentials", cluster, "--project=" ++ project, loc])
        = some e →
      (getClusterCredentials w t project loc cluster).1 =
        some (.errorString ("error executing get-credentials: " ++ e.Error))) ∧
    (∀ args, containerArgs args = "container" :: args) := by
  have hargs : ∀ args, containerArgs args = "container" :: args := fun _ => rfl
  cases hr : w.Run t .InheritOutput (.Command "gcloud"
      ["container", "clusters", "get-credentials", cluster, "--project=" ++ project, loc]) with
  | none =>
    simp [getClusterCredentials, runWithOutput, hargs, hr]
  | some e =>
    simp [getClusterCredentials, runWithOutput, hargs, hr]

/-- C9, in a world where `get-credentials` exits with status 1. -/
theorem C9_get_cluster_credentials_witness :
    (getClusterCredentials
      (sampleWorld [.Command "gcloud" ["container", "clusters", "get-credentials", "c1",
        "--project=demo-proj", "us-central1"]] []) [] "demo-proj" "us-central1" "c1").1 =
      some (.errorString ("error executing get-credentials: " ++
        (GoError.exitError "exit status 1" "").Error)) :=
  (C9_get_cluster_credentials
    (sampleWorld [.Command "gcloud" ["container", "clusters", "get-credentials", "c1",
      "--project=demo-proj", "us-central1"]] []) [] "demo-proj" "us-central1" "c1").2.2.1
    (.exitError "exit status 1" "") (by decide)

end Kubetest2GKE
